import Mathlib

/-!
# ParaSAFE core: shallow embedding and verification

This file embeds the core data model and per-tick operations of the ParaSAFE
fixed-step flight-dynamics simulator and proves properties about them:

* `SimulationClock` (tick-barrier clock): the prime advance of `start()`, one
  iteration of its main loop, and `notifyStepCompleted`.
* `SharedStateSpace`: the shared scalar fields, the versioned snapshot pair
  `updateState`/`getState`, and `setFlightMode` with the authority bits.
* `ACForceModel.calculateNetForce` (linear force model) and
  `DynamicsModel_FixedWing_Linear.step` feeding the state-manager's
  `process_raw_update` through the state-update queue.
* The per-tick control laws of the throttle-increase, throttle-decrease,
  brake and runway-cruise controllers.
* The event monitor's latch, the controller manager's once-only callback and
  its authority gate for starting controllers.
* `FileLogger.recordData` (CSV recorder) and its strictly-increasing time
  column.

Real arithmetic on C++ `double`s is modelled over `ℚ`; every constant of the
source (`0.01`, `1.225`, `9.81`, ...) is translated to the exact rational it
denotes in the source text.
-/

namespace ParaSAFE

/-! ## Simulation clock (`SimulationClock`, simulation_clock header)

State of the clock: `dt`, `current_time`, `time_steps`, the worker counters
and the running/paused flags.  The condition-variable waits are modelled by
their wake-up predicates: an iteration of the `start()` loop that would stay
blocked in a wait is the identity on the state. -/

structure ClockState where
  time_steps : Nat
  current_time : ℚ
  dt : ℚ
  registered_threads : Int
  completed_threads : Int
  running : Bool
  paused : Bool
deriving Repr, DecidableEq

/-- Source `SimulationClock::registerThread`: `registered_threads++`. -/
def registerThread (s : ClockState) : ClockState :=
  { s with registered_threads := s.registered_threads + 1 }

/-- Source `SimulationClock::unregisterThread`: `registered_threads--`. -/
def unregisterThread (s : ClockState) : ClockState :=
  { s with registered_threads := s.registered_threads - 1 }

/-- Source `SimulationClock::notifyStepCompleted`: `completed_threads++` and notify
`cv_step_end`. -/
def notifyStepCompleted (s : ClockState) : ClockState :=
  { s with completed_threads := s.completed_threads + 1 }

/-- The entry of `SimulationClock::start()`: if already running return,
otherwise set `running`, clear `paused`, and do the prime advance
(`current_time += dt; time_steps++`), publishing tick 1 once. -/
def startPrime (s : ClockState) : ClockState :=
  if s.running then s
  else { s with running := true, paused := false,
                current_time := s.current_time + s.dt,
                time_steps := s.time_steps + 1 }

/-- The wake-up predicate of the `cv_step_end.wait` in `start()`:
`completed_threads >= registered_threads || !running`. -/
def stepEndWaitDone (s : ClockState) : Bool :=
  decide (s.registered_threads ≤ s.completed_threads) || !s.running

/-- One iteration of the main loop of `SimulationClock::start()`:
wait on `cv_step_end` until `completed_threads >= registered_threads` or not
running; if still running, reset `completed_threads`, wait out a pause, then
advance `current_time += dt`, `time_steps++` and notify `cv_step_start`.
An iteration that stays blocked in a wait is modelled as the identity. -/
def clockLoopIter (s : ClockState) : ClockState :=
  if !s.running then s
  else if !(stepEndWaitDone s) then s
  else
    let s1 : ClockState := { s with completed_threads := 0 }
    if s1.paused then s1
    else { s1 with current_time := s1.current_time + s1.dt,
                   time_steps := s1.time_steps + 1 }

/-- The clock as constructed: time 0, step 0, no workers, not running. -/
def clockInitial : ClockState :=
  { time_steps := 0, current_time := 0, dt := 1/100,
    registered_threads := 0, completed_threads := 0,
    running := false, paused := false }

end ParaSAFE

namespace ParaSAFE

/-! ## Shared state (`SharedStateSpace`, shared_state.hpp)

The atomic scalar fields, the mutex-guarded snapshot record
(`current_state`, `state_version`), the flight mode and the four authority
bits.  Atomic loads/stores become plain field reads/record updates. -/

inductive FlightMode
  | MANUAL
  | AUTO
  | SEMI_AUTO
deriving Repr, DecidableEq

/-- Source `SharedStateSpace::ControlAuthority`: which party owns each channel.
Constructed with pilot ownership and no auto ownership. -/
structure ControlAuthority where
  pilot_has_throttle_control : Bool := true
  pilot_has_brake_control : Bool := true
  auto_system_has_throttle_control : Bool := false
  auto_system_has_brake_control : Bool := false
deriving Repr, DecidableEq

/-- Source `StateSnapshot`: the declared snapshot subset of fields. -/
structure StateSnapshot where
  position : ℚ := 0
  velocity : ℚ := 0
  acceleration : ℚ := 0
  throttle : ℚ := 0
  brake : ℚ := 0
  thrust : ℚ := 0
  drag_force : ℚ := 0
  brake_force : ℚ := 0
  simulation_time : ℚ := 0
  pitch_angle : ℚ := 0
  pitch_rate : ℚ := 0
  pitch_control_output : ℚ := 0
deriving Repr, DecidableEq

/-- Source `SharedStateSpace`: every scalar field of the source class, plus the
snapshot record and its version counter.  Defaults are the member
initializers of the source. -/
structure SharedStateSpace where
  position : ℚ := 0
  velocity : ℚ := 0
  acceleration : ℚ := 0
  throttle : ℚ := 0
  brake : ℚ := 0
  simulation_time : ℚ := 0
  thrust : ℚ := 0
  brake_force : ℚ := 0
  drag_force : ℚ := 0
  simulation_running : Bool := false
  simulation_started : Bool := false
  final_stop_enabled : Bool := false
  throttle_control_enabled : Bool := false
  brake_control_enabled : Bool := false
  cruise_control_enabled : Bool := false
  abort_triggered : Bool := false
  system_ready : Bool := false
  user_confirmed : Bool := false
  target_speed : ℚ := 0
  abort_speed : ℚ := 0
  abort_speed_threshold : ℚ := 0
  zero_velocity_count : Int := 0
  pitch_angle : ℚ := 0
  pitch_rate : ℚ := 0
  pitch_control_output : ℚ := 0
  pitch_control_enabled : Bool := false
  current_state : StateSnapshot := {}
  state_version : Nat := 0
  flight_mode : FlightMode := .MANUAL
  control_auth : ControlAuthority := {}
deriving Repr, DecidableEq

/-- Source `SharedStateSpace::updateState`: under `state_mutex`, overwrite
`current_state` and `state_version.fetch_add(1)`. -/
def updateState (s : SharedStateSpace) (new_state : StateSnapshot) : SharedStateSpace :=
  { s with current_state := new_state, state_version := s.state_version + 1 }

/-- Source `SharedStateSpace::getState`: build a `StateSnapshot` from fresh atomic
loads of the individual scalar fields (the committed `current_state` record
is never read). -/
def getState (s : SharedStateSpace) : StateSnapshot :=
  { position := s.position
    velocity := s.velocity
    acceleration := s.acceleration
    throttle := s.throttle
    brake := s.brake
    thrust := s.thrust
    drag_force := s.drag_force
    brake_force := s.brake_force
    simulation_time := s.simulation_time
    pitch_angle := s.pitch_angle
    pitch_rate := s.pitch_rate
    pitch_control_output := s.pitch_control_output }

/-- Source `SharedStateSpace::setFlightMode`: store the mode and set the four
authority bits as a group according to the mode. -/
def setFlightMode (s : SharedStateSpace) (mode : FlightMode) : SharedStateSpace :=
  match mode with
  | .MANUAL =>
      { s with flight_mode := mode,
               control_auth :=
                 { pilot_has_throttle_control := true
                   pilot_has_brake_control := true
                   auto_system_has_throttle_control := false
                   auto_system_has_brake_control := false } }
  | .AUTO =>
      { s with flight_mode := mode,
               control_auth :=
                 { pilot_has_throttle_control := false
                   pilot_has_brake_control := false
                   auto_system_has_throttle_control := true
                   auto_system_has_brake_control := true } }
  | .SEMI_AUTO =>
      { s with flight_mode := mode,
               control_auth :=
                 { pilot_has_throttle_control := true
                   pilot_has_brake_control := true
                   auto_system_has_throttle_control := true
                   auto_system_has_brake_control := true } }

/-- Source `ControllerManagerThread::setFlightMode`: dispatch on the mode name of
the action config (`flight_mode=AUTO|MANUAL|SEMI_AUTO`); unknown names are
ignored. -/
def managerSetFlightMode (s : SharedStateSpace) (mode_name : String) : SharedStateSpace :=
  if mode_name = "AUTO" then setFlightMode s .AUTO
  else if mode_name = "MANUAL" then setFlightMode s .MANUAL
  else if mode_name = "SEMI_AUTO" then setFlightMode s .SEMI_AUTO
  else s

/-- C1 counterexample state: the clock right after the prime advance of
`start()`, with no worker registered and none completed. -/
def clockAfterPrime : ClockState := startPrime clockInitial

/-! ## Force model and dynamics (`ACForceModel`, `DynamicsModel_FixedWing_Linear`)

Doubles become exact rationals: `1.225 = 49/40`, `9.81 = 981/100`,
`0.01 = 1/100`, `0.3 = 3/10`. -/

/-- Source `AircraftConfigBase` accessors as a record of the returned constants. -/
structure AircraftConfigData where
  mass : ℚ
  maxThrust : ℚ
  minThrust : ℚ
  maxBrakeForce : ℚ
  dragCoefficient : ℚ
  staticFrictionCoefficient : ℚ
deriving Repr, DecidableEq

/-- Source `AircraftConfig_FixedWin_AC1`: mass 80000, max thrust 500000, min thrust
0, max brake 400000, Cd 0.02, mu_s 0.02. -/
def AircraftConfig_FixedWin_AC1 : AircraftConfigData :=
  { mass := 80000, maxThrust := 500000, minThrust := 0,
    maxBrakeForce := 400000, dragCoefficient := 1/50,
    staticFrictionCoefficient := 1/50 }

/-- Source `ForceResult` of the force model. -/
structure ForceResult where
  net_force : ℚ
  thrust : ℚ
  drag : ℚ
  brake_force : ℚ
  static_friction : ℚ
deriving Repr, DecidableEq

/-- Source `ACForceModel::calculateNetForce` (linear variant):
thrust from throttle, quadratic drag with rho = 1.225 and area 50; if
`|v| < 0.01` no brake force and static friction `mu_s * m * 9.81`, else a
speed-factored brake force and no static friction; net force is
`thrust - drag - brake_force`, and in the static case it is zeroed when its
magnitude is below the static friction, else reduced by the static friction
in its own direction. -/
def calculateNetForce (state : SharedStateSpace) (current_velocity : ℚ)
    (cfg : AircraftConfigData) : ForceResult :=
  let thrust := state.throttle * cfg.maxThrust
  let drag := (1/2) * (49/40) * 50 * cfg.dragCoefficient * current_velocity * current_velocity
  if |current_velocity| < 1/100 then
    let brake_force : ℚ := 0
    let normal_force := cfg.mass * (981/100)
    let static_friction := cfg.staticFrictionCoefficient * normal_force
    let net0 := thrust - drag - brake_force
    let net_force :=
      if |net0| < static_friction then 0
      else net0 - static_friction * (if net0 > 0 then 1 else -1)
    { net_force := net_force, thrust := thrust, drag := drag,
      brake_force := brake_force, static_friction := static_friction }
  else
    let speed_factor := min 1 (max (3/10) (|current_velocity| / 50))
    let brake_force := state.brake * cfg.maxBrakeForce * speed_factor
    { net_force := thrust - drag - brake_force, thrust := thrust, drag := drag,
      brake_force := brake_force, static_friction := 0 }

/-- Source `StateUpdateType` of the state-update queue. -/
inductive StateUpdateType
  | Position
  | Velocity
  | Acceleration
  | Throttle
  | Brake
deriving Repr, DecidableEq

/-- Source `StateUpdateMessage`: a tagged double. -/
structure StateUpdateMessage where
  type : StateUpdateType
  value : ℚ
deriving Repr, DecidableEq

/-- Source `StateManagerThread::process_raw_update`: store the message value into
the corresponding `SharedStateSpace` field, verbatim. -/
def process_raw_update (s : SharedStateSpace) (msg : StateUpdateMessage) : SharedStateSpace :=
  match msg.type with
  | .Position => { s with position := msg.value }
  | .Velocity => { s with velocity := msg.value }
  | .Acceleration => { s with acceleration := msg.value }
  | .Throttle => { s with throttle := msg.value }
  | .Brake => { s with brake := msg.value }

/-- Source `DynamicsModel_FixedWing_Linear::step`: compute forces, store them into
the shared state, compute `a = F/m`, `v1 = v + a*0.01`, `x1 = x + v*0.01`
(fixed dt 0.01, position advanced by the pre-step velocity), push the three
messages onto the state-update queue and mirror the clock time.  Returns
the state after the direct stores together with the pushed messages. -/
def DynamicsModel_FixedWing_Linear_step (state : SharedStateSpace)
    (cfg : AircraftConfigData) (clock_time : ℚ) :
    SharedStateSpace × List StateUpdateMessage :=
  let forces := calculateNetForce state state.velocity cfg
  let state1 := { state with thrust := forces.thrust, drag_force := forces.drag,
                             brake_force := forces.brake_force,
                             simulation_time := clock_time }
  let acceleration := forces.net_force / cfg.mass
  let current_velocity := state.velocity
  let current_position := state.position
  let new_velocity := current_velocity + acceleration * (1/100)
  let new_position := current_position + current_velocity * (1/100)
  (state1, [{ type := .Velocity, value := new_velocity },
            { type := .Position, value := new_position },
            { type := .Acceleration, value := acceleration }])

/-- One committed tick of the integrator-plus-state-manager pipeline: the
integrator's `step` runs, then the state manager drains the queue, applying
each message with `process_raw_update`. -/
def integratorTick (state : SharedStateSpace) (cfg : AircraftConfigData)
    (clock_time : ℚ) : SharedStateSpace :=
  let sm := DynamicsModel_FixedWing_Linear_step state cfg clock_time
  sm.2.foldl process_raw_update sm.1

/-! ## Controllers (throttle_controller.hpp, brake_controller.hpp,
CruiseOnRunway_controller.hpp, controller_config.hpp) -/

def THROTTLE_INCREASE_RATE : ℚ := 1/10

def THROTTLE_DECREASE_RATE : ℚ := 1/5

def BRAKE_RATE : ℚ := 1/5

def MAX_THROTTLE : ℚ := 1

def MAX_BRAKE : ℚ := 1

def CRUISE_GAIN : ℚ := 1/10

def FIXED_DT : ℚ := 1/100

/-- Source `ThrottleController_Increase::updateThrottle`: the new throttle value,
saturated into [0,1] with `min(1, max(0, t + rate*dt))`.  (The source
enqueues it only when it differs from the current value by more than 1e-6;
either way the throttle after the tick is this value or the old one.) -/
def throttleIncrease_newThrottle (current_throttle : ℚ) : ℚ :=
  min 1 (max 0 (current_throttle + THROTTLE_INCREASE_RATE * FIXED_DT))

/-- Source `ThrottleController_Decrease::updateThrottle`: decrease by `rate*dt`,
floored at 0; always enqueued. -/
def throttleDecrease_newThrottle (current_throttle : ℚ) : ℚ :=
  let new_throttle := current_throttle - THROTTLE_DECREASE_RATE * FIXED_DT
  if new_throttle < 0 then 0 else new_throttle

/-- Source `BrakeController::updateBrake`: increase by `BRAKE_RATE*dt`, capped at
`MAX_BRAKE`; stored directly into the shared state. -/
def brake_newBrake (current_brake : ℚ) : ℚ :=
  let new_brake := current_brake + BRAKE_RATE * FIXED_DT
  if new_brake > MAX_BRAKE then MAX_BRAKE else new_brake

/-- Source `CruiseOnRunwayController::calculateThrottleAndBrake`: proportional law
on `velocity_error = target_velocity - current_velocity`; positive error
drives a saturated throttle and zero brake, otherwise zero throttle and a
saturated brake. -/
def calculateThrottleAndBrake (current_velocity target_velocity : ℚ) : ℚ × ℚ :=
  let velocity_error := target_velocity - current_velocity
  if velocity_error > 0 then
    let throttle := CRUISE_GAIN * velocity_error
    (max 0 (min throttle MAX_THROTTLE), 0)
  else
    let brake := -CRUISE_GAIN * velocity_error
    (0, max 0 (min brake MAX_BRAKE))

/-- Source `CruiseOnRunwayController::updateThrottle`: reads the current velocity,
uses the local `target_velocity = 100.0` (a hard-coded default — the
`SharedStateSpace.target_speed` field is not read), and stores the computed
throttle and brake directly into the shared state. -/
def cruiseUpdateThrottle (s : SharedStateSpace) : SharedStateSpace :=
  let current_velocity := s.velocity
  let target_velocity : ℚ := 100
  let tb := calculateThrottleAndBrake current_velocity target_velocity
  { s with throttle := tb.1, brake := tb.2 }

/-- The `velocity_error` the cruise controller computes per tick: the local
`target_velocity` (hard-coded `100.0` in `updateThrottle`) minus the current
velocity, as passed to `calculateThrottleAndBrake`. -/
def cruiseVelocityError (s : SharedStateSpace) : ℚ := 100 - s.velocity

/-- Modelled from the spec (for the refinement comparison of C3 only): the
velocity error as the spec describes it, `SharedState.target_speed` minus
the current velocity. -/
def specCruiseVelocityError (s : SharedStateSpace) : ℚ := s.target_speed - s.velocity

/-- C2 counterexample state: rolling at 0.011 m/s with full brake and no
throttle (the final instants of a braked stop). -/
def exC2 : SharedStateSpace := { velocity := 11/1000, brake := 1 }

/-- C3 counterexample state: velocity 99 m/s with a scenario target speed of
50 m/s seeded in `target_speed`. -/
def exC3 : SharedStateSpace := { velocity := 99, target_speed := 50 }

/-- C4 counterexample state: creeping at 0.005 m/s (inside the `|v| < 0.01`
static band) with no throttle and no brake. -/
def exC4 : SharedStateSpace := { velocity := 1/200 }

/-! ## Event monitor and controller manager latches
(event_detection.hpp, controller_manager.hpp) -/

/-- One event's slice of the controller manager's event handling: the
`triggered_events` entry and how many times its action list has been
executed. -/
structure EventExecState where
  triggered : Bool
  execCount : Nat
deriving Repr, DecidableEq

/-- The callback `ControllerManagerThread::setupEventHandlers` subscribes
for an event: if `isEventTriggered` skip, else `markEventTriggered` and
execute the event's action list once. -/
def managerEventCallback (s : EventExecState) : EventExecState :=
  if s.triggered then s
  else { triggered := true, execCount := s.execCount + 1 }

/-- One tick of `EventMonitorThread::check_events` for one event: given the
`local_triggered_events` latch and this tick's predicate value, return the
new latch and whether the event name was published on the bus. -/
def monitorCheckEvent (latched : Bool) (pred : Bool) : Bool × Bool :=
  if !latched && pred then (true, true) else (latched, false)

/-- How many times the monitor publishes one event over a run, given the
sequence of per-tick predicate values. -/
def monitorPublishCount : Bool → List Bool → Nat
  | _, [] => 0
  | latched, p :: ps =>
      let r := monitorCheckEvent latched p
      (if r.2 then 1 else 0) + monitorPublishCount r.1 ps

/-! ## Controller manager: authority gate (controller_manager.hpp) -/

/-- The five controllers of `createControllers`, by role (the source keys
them by their Chinese display names). -/
inductive ControllerName
  | throttle_inc
  | throttle_dec
  | brake
  | cruise_runway
  | pitch_hold
deriving Repr, DecidableEq

/-- The `state_settings` of an action config: which of the four enable
flags the entry sets, and to what. -/
structure StateSettings where
  throttle_control_enabled : Option Bool := none
  brake_control_enabled : Option Bool := none
  cruise_control_enabled : Option Bool := none
  pitch_control_enabled : Option Bool := none
deriving Repr, DecidableEq

/-- Source `ControllerManagerThread::applyStateSettings`: set each enable flag
named in the settings map. -/
def applyStateSettings (s : SharedStateSpace) (settings : StateSettings) : SharedStateSpace :=
  { s with
    throttle_control_enabled :=
      settings.throttle_control_enabled.getD s.throttle_control_enabled,
    brake_control_enabled :=
      settings.brake_control_enabled.getD s.brake_control_enabled,
    cruise_control_enabled :=
      settings.cruise_control_enabled.getD s.cruise_control_enabled,
    pitch_control_enabled :=
      settings.pitch_control_enabled.getD s.pitch_control_enabled }

/-- The authority check of `ControllerManagerThread::startController`: the
throttle-increase, throttle-decrease and runway-cruise controllers need
`auto_system_has_throttle_control`, the brake controller needs
`auto_system_has_brake_control`; the pitch controller is ungated. -/
def startControllerAuthorized (s : SharedStateSpace) (name : ControllerName) : Bool :=
  match name with
  | .throttle_inc => s.control_auth.auto_system_has_throttle_control
  | .throttle_dec => s.control_auth.auto_system_has_throttle_control
  | .cruise_runway => s.control_auth.auto_system_has_throttle_control
  | .brake => s.control_auth.auto_system_has_brake_control
  | .pitch_hold => true

/-- A `START_*` action of type CONTROLLER in
`ControllerManagerThread::executeControllerActions`: first
`applyStateSettings`, then `startController`, which starts the worker only
if the authority check passes (a denied start logs and returns).  The
returned flag says whether the controller's worker was started. -/
def executeStartControllerAction (s : SharedStateSpace) (settings : StateSettings)
    (name : ControllerName) : SharedStateSpace × Bool :=
  let s1 := applyStateSettings s settings
  if startControllerAuthorized s1 name then (s1, true) else (s1, false)

/-! ## CSV data recorder (`FileLogger`, data_recorder.hpp) -/

/-- The recorder's state: the last recorded timestamp, the time column of
the rows written so far, and the warning count. -/
structure FileLoggerState where
  last_time : ℚ
  rows : List ℚ
  warnings : Nat
deriving Repr, DecidableEq

/-- Source `FileLogger` as constructed: `last_time_ = -1.0`, header only, no
warnings. -/
def FileLogger_init : FileLoggerState :=
  { last_time := -1, rows := [], warnings := 0 }

/-- Source `FileLogger::recordData` (time column only): a timestamp at or below
the last recorded one is dropped with a warning and writes no row; an
accepted timestamp becomes the new `last_time_` and appends a row. -/
def recordData (s : FileLoggerState) (current_time : ℚ) : FileLoggerState :=
  if current_time ≤ s.last_time then
    { s with warnings := s.warnings + 1 }
  else
    { last_time := current_time, rows := s.rows ++ [current_time],
      warnings := s.warnings }

/-! ## Theorems -/

lemma getState_updateState (s : SharedStateSpace) (t : StateSnapshot) :
    getState (updateState s t) = getState s := rfl

lemma getState_foldl_updateState (l : List StateSnapshot) (s : SharedStateSpace) :
    getState (l.foldl updateState s) = getState s := by
  induction l generalizing s with
  | nil => rfl
  | cons t l ih => simpa [List.foldl] using ih (updateState s t)

/-- C1: the claim is FALSE on the code.  From `registered_threads = 0` and
`completed_threads = 0`, `start()` publishes tick 1 — but the barrier wait
predicate `completed_threads >= registered_threads` holds trivially at
`0 >= 0`, so the very next loop iteration advances to tick 2 without any
worker having registered or completed. -/
theorem C1_clock_free_runs_without_workers :
    clockAfterPrime.time_steps = 1 ∧
    clockAfterPrime.registered_threads = 0 ∧
    clockAfterPrime.completed_threads = 0 ∧
    stepEndWaitDone clockAfterPrime = true ∧
    (clockLoopIter clockAfterPrime).time_steps = 2 := by
  decide

/-- C1 (amended): `start()` publishes tick 1 exactly once; afterwards the
loop blocks at the barrier exactly when `completed_threads <
registered_threads` — so with `registered_threads = 0` the wait predicate
`0 >= 0` holds and the clock advances tick after tick without waiting for
any worker, while with at least one registered worker and no completion the
clock does not advance. -/
theorem C1_clock_barrier_amended (s0 s : ClockState)
    (h0 : s0.running = false) (hrun : s.running = true) (hpause : s.paused = false) :
    (startPrime s0).time_steps = s0.time_steps + 1 ∧
    (s.registered_threads ≤ s.completed_threads →
      (clockLoopIter s).time_steps = s.time_steps + 1) ∧
    (s.completed_threads < s.registered_threads → clockLoopIter s = s) := by
  refine ⟨?_, ?_, ?_⟩
  · simp [startPrime, h0]
  · intro hle
    simp [clockLoopIter, stepEndWaitDone, hrun, hpause, hle]
  · intro hlt
    simp [clockLoopIter, stepEndWaitDone, hrun, not_le.mpr hlt]

/-- Witness for `C1_clock_barrier_amended` at a concrete clock state. -/
theorem C1_clock_barrier_amended_witness :
    clockInitial.running = false ∧
    (registerThread clockAfterPrime).running = true ∧
    (registerThread clockAfterPrime).paused = false ∧
    ((startPrime clockInitial).time_steps = clockInitial.time_steps + 1 ∧
     ((registerThread clockAfterPrime).registered_threads ≤
        (registerThread clockAfterPrime).completed_threads →
       (clockLoopIter (registerThread clockAfterPrime)).time_steps =
         (registerThread clockAfterPrime).time_steps + 1) ∧
     ((registerThread clockAfterPrime).completed_threads <
        (registerThread clockAfterPrime).registered_threads →
       clockLoopIter (registerThread clockAfterPrime) = registerThread clockAfterPrime)) :=
  ⟨by decide, by decide, by decide,
   C1_clock_barrier_amended clockInitial (registerThread clockAfterPrime)
     (by decide) (by decide) (by decide)⟩

lemma integratorTick_velocity (s : SharedStateSpace) (cfg : AircraftConfigData) (t : ℚ) :
    (integratorTick s cfg t).velocity
      = s.velocity + (calculateNetForce s s.velocity cfg).net_force / cfg.mass * (1/100) := rfl

lemma integratorTick_position (s : SharedStateSpace) (cfg : AircraftConfigData) (t : ℚ) :
    (integratorTick s cfg t).position = s.position + s.velocity * (1/100) := rfl

/-- C2: the claim is FALSE on the code.  Neither the integrator's `step` nor
the state manager's `process_raw_update` clamps velocity: braking at full
brake from 0.011 m/s commits a strictly negative velocity to
`SharedState`. -/
theorem C2_committed_velocity_negative :
    (integratorTick exC2 AircraftConfig_FixedWin_AC1 (1/100)).velocity < 0 := by
  norm_num [integratorTick, DynamicsModel_FixedWing_Linear_step, calculateNetForce,
    process_raw_update, exC2, AircraftConfig_FixedWin_AC1, List.foldl, abs, min_def, max_def]

/-- C2 (amended): no clamp exists in the integrator-plus-state-manager
pipeline — the velocity committed at the end of a tick is exactly
`v + (net_force/mass)*dt`, whatever that value is (including negative
values, as `C2_committed_velocity_negative` witnesses). -/
theorem C2_committed_velocity_exact (s : SharedStateSpace)
    (cfg : AircraftConfigData) (t : ℚ) :
    (integratorTick s cfg t).velocity
      = s.velocity + (calculateNetForce s s.velocity cfg).net_force / cfg.mass * (1/100) :=
  integratorTick_velocity s cfg t

/-- C3: the claim is FALSE on the code.  `CruiseOnRunwayController` uses the
hard-coded local `target_velocity = 100.0`, not `SharedState.target_speed`:
with a seeded target of 50 m/s and velocity 99 m/s the computed error is
`100 − 99 = 1`, not `50 − 99 = −49`, and the controller commands throttle
instead of brake. -/
theorem C3_cruise_ignores_target_speed :
    cruiseVelocityError exC3 ≠ specCruiseVelocityError exC3 ∧
    (cruiseUpdateThrottle exC3).throttle = 1/10 ∧
    (cruiseUpdateThrottle exC3).brake = 0 ∧
    (calculateThrottleAndBrake exC3.velocity exC3.target_speed).1 = 0 ∧
    (calculateThrottleAndBrake exC3.velocity exC3.target_speed).2 = 1 := by
  refine ⟨by norm_num [cruiseVelocityError, specCruiseVelocityError, exC3], ?_, ?_, ?_, ?_⟩ <;>
    norm_num [cruiseUpdateThrottle, calculateThrottleAndBrake, exC3,
      CRUISE_GAIN, MAX_THROTTLE, MAX_BRAKE, min_def, max_def]

/-- C3 (amended): for every tick in which cruise control is enabled, the
velocity error the cruise controller computes is `100.0` (its hard-coded
default target) minus the current velocity; the resulting throttle and
brake are those of `calculateThrottleAndBrake` at target 100, and both the
error and the outputs are unchanged by any value of
`SharedState.target_speed`. -/
theorem C3_cruise_error_hardcoded_target (s : SharedStateSpace) (q : ℚ) :
    cruiseVelocityError s = 100 - s.velocity ∧
    (cruiseUpdateThrottle s).throttle = (calculateThrottleAndBrake s.velocity 100).1 ∧
    (cruiseUpdateThrottle s).brake = (calculateThrottleAndBrake s.velocity 100).2 ∧
    cruiseVelocityError { s with target_speed := q } = cruiseVelocityError s ∧
    (cruiseUpdateThrottle { s with target_speed := q }).throttle
      = (cruiseUpdateThrottle s).throttle ∧
    (cruiseUpdateThrottle { s with target_speed := q }).brake
      = (cruiseUpdateThrottle s).brake :=
  ⟨rfl, rfl, rfl, rfl, rfl, rfl⟩

/-- C4: the claim is FALSE on the code in its final conjunct.  At
`|v| = 0.005 < 0.01` with zero throttle and brake every static-friction
clause holds and acceleration resolves to 0, but the position is advanced
by the pre-step velocity `v ≠ 0`, so it DOES change over the tick. -/
theorem C4_position_moves_in_static_band :
    |exC4.velocity| < 1/100 ∧
    (calculateNetForce exC4 exC4.velocity AircraftConfig_FixedWin_AC1).brake_force = 0 ∧
    (calculateNetForce exC4 exC4.velocity AircraftConfig_FixedWin_AC1).static_friction = 15696 ∧
    |(calculateNetForce exC4 exC4.velocity AircraftConfig_FixedWin_AC1).thrust
      - (calculateNetForce exC4 exC4.velocity AircraftConfig_FixedWin_AC1).drag
      - (calculateNetForce exC4 exC4.velocity AircraftConfig_FixedWin_AC1).brake_force|
      < (calculateNetForce exC4 exC4.velocity AircraftConfig_FixedWin_AC1).static_friction ∧
    (calculateNetForce exC4 exC4.velocity AircraftConfig_FixedWin_AC1).net_force = 0 ∧
    (calculateNetForce exC4 exC4.velocity AircraftConfig_FixedWin_AC1).net_force
      / AircraftConfig_FixedWin_AC1.mass = 0 ∧
    (integratorTick exC4 AircraftConfig_FixedWin_AC1 (1/100)).position ≠ exC4.position := by
  norm_num [integratorTick, DynamicsModel_FixedWing_Linear_step, calculateNetForce,
    process_raw_update, exC4, AircraftConfig_FixedWin_AC1, List.foldl, abs]

/-- C4 (amended): for `|v| < 0.01` the force model returns `brake_force = 0`
and `static_friction = mu_s * m * g`; if `|thrust − drag − brake_force| <
static_friction` the net force is zeroed (so acceleration resolves to 0),
else the static friction is subtracted in the direction of the net force —
but the position is advanced by the pre-step velocity `v·dt`, so it stays
unchanged over the tick only when `v = 0`, not on the whole band. -/
theorem C4_static_friction_amended (s : SharedStateSpace) (cfg : AircraftConfigData)
    (t : ℚ) (hv : |s.velocity| < 1/100) :
    (calculateNetForce s s.velocity cfg).brake_force = 0 ∧
    (calculateNetForce s s.velocity cfg).static_friction
      = cfg.staticFrictionCoefficient * (cfg.mass * (981/100)) ∧
    (|(calculateNetForce s s.velocity cfg).thrust
        - (calculateNetForce s s.velocity cfg).drag
        - (calculateNetForce s s.velocity cfg).brake_force|
        < (calculateNetForce s s.velocity cfg).static_friction →
      (calculateNetForce s s.velocity cfg).net_force = 0 ∧
      (calculateNetForce s s.velocity cfg).net_force / cfg.mass = 0) ∧
    (¬ (|(calculateNetForce s s.velocity cfg).thrust
          - (calculateNetForce s s.velocity cfg).drag
          - (calculateNetForce s s.velocity cfg).brake_force|
          < (calculateNetForce s s.velocity cfg).static_friction) →
      (calculateNetForce s s.velocity cfg).net_force
        = ((calculateNetForce s s.velocity cfg).thrust
            - (calculateNetForce s s.velocity cfg).drag
            - (calculateNetForce s s.velocity cfg).brake_force)
          - (calculateNetForce s s.velocity cfg).static_friction
            * (if 0 < (calculateNetForce s s.velocity cfg).thrust
                    - (calculateNetForce s s.velocity cfg).drag
                    - (calculateNetForce s s.velocity cfg).brake_force
               then 1 else -1)) ∧
    (integratorTick s cfg t).position = s.position + s.velocity * (1/100) ∧
    (s.velocity = 0 → (integratorTick s cfg t).position = s.position) := by
  have hnf : calculateNetForce s s.velocity cfg =
      (let thrust := s.throttle * cfg.maxThrust
       let drag := (1/2) * (49/40) * 50 * cfg.dragCoefficient * s.velocity * s.velocity
       let static_friction := cfg.staticFrictionCoefficient * (cfg.mass * (981/100))
       let net0 := thrust - drag - 0
       { net_force :=
           if |net0| < static_friction then 0
           else net0 - static_friction * (if net0 > 0 then 1 else -1),
         thrust := thrust, drag := drag,
         brake_force := 0, static_friction := static_friction }) := by
    rw [calculateNetForce, if_pos hv]
  rw [hnf]
  refine ⟨rfl, rfl, ?_, ?_, integratorTick_position s cfg t, ?_⟩
  · intro h
    simp only [sub_zero] at h ⊢
    rw [if_pos h]
    exact ⟨rfl, by simp⟩
  · intro h
    simp only [sub_zero, gt_iff_lt] at h ⊢
    rw [if_neg h]
  · intro h0
    rw [integratorTick_position s cfg t, h0]
    ring

/-- Witness for `C4_static_friction_amended` at the concrete static-band
state `exC4`. -/
theorem C4_static_friction_amended_witness :
    |exC4.velocity| < 1/100 ∧
    ((calculateNetForce exC4 exC4.velocity AircraftConfig_FixedWin_AC1).brake_force = 0 ∧
     (calculateNetForce exC4 exC4.velocity AircraftConfig_FixedWin_AC1).static_friction
       = AircraftConfig_FixedWin_AC1.staticFrictionCoefficient
         * (AircraftConfig_FixedWin_AC1.mass * (981/100)) ∧
     (|(calculateNetForce exC4 exC4.velocity AircraftConfig_FixedWin_AC1).thrust
         - (calculateNetForce exC4 exC4.velocity AircraftConfig_FixedWin_AC1).drag
         - (calculateNetForce exC4 exC4.velocity AircraftConfig_FixedWin_AC1).brake_force|
         < (calculateNetForce exC4 exC4.velocity AircraftConfig_FixedWin_AC1).static_friction →
       (calculateNetForce exC4 exC4.velocity AircraftConfig_FixedWin_AC1).net_force = 0 ∧
       (calculateNetForce exC4 exC4.velocity AircraftConfig_FixedWin_AC1).net_force
         / AircraftConfig_FixedWin_AC1.mass = 0) ∧
     (¬ (|(calculateNetForce exC4 exC4.velocity AircraftConfig_FixedWin_AC1).thrust
           - (calculateNetForce exC4 exC4.velocity AircraftConfig_FixedWin_AC1).drag
           - (calculateNetForce exC4 exC4.velocity AircraftConfig_FixedWin_AC1).brake_force|
           < (calculateNetForce exC4 exC4.velocity AircraftConfig_FixedWin_AC1).static_friction) →
       (calculateNetForce exC4 exC4.velocity AircraftConfig_FixedWin_AC1).net_force
         = ((calculateNetForce exC4 exC4.velocity AircraftConfig_FixedWin_AC1).thrust
             - (calculateNetForce exC4 exC4.velocity AircraftConfig_FixedWin_AC1).drag
             - (calculateNetForce exC4 exC4.velocity AircraftConfig_FixedWin_AC1).brake_force)
           - (calculateNetForce exC4 exC4.velocity AircraftConfig_FixedWin_AC1).static_friction
             * (if 0 < (calculateNetForce exC4 exC4.velocity AircraftConfig_FixedWin_AC1).thrust
                     - (calculateNetForce exC4 exC4.velocity AircraftConfig_FixedWin_AC1).drag
                     - (calculateNetForce exC4 exC4.velocity AircraftConfig_FixedWin_AC1).brake_force
                then 1 else -1)) ∧
     (integratorTick exC4 AircraftConfig_FixedWin_AC1 (1/100)).position
       = exC4.position + exC4.velocity * (1/100) ∧
     (exC4.velocity = 0 →
       (integratorTick exC4 AircraftConfig_FixedWin_AC1 (1/100)).position = exC4.position)) :=
  ⟨by norm_num [exC4, abs],
   C4_static_friction_amended exC4 AircraftConfig_FixedWin_AC1 (1/100)
     (by norm_num [exC4, abs])⟩

/-- C5: every per-tick throttle or brake value produced by the
throttle-increase, throttle-decrease, brake and cruise controllers is
saturated into [0,1] whenever the current throttle and brake are in [0,1]
(the increase, decrease and cruise laws even unconditionally), and the
state manager applies the enqueued values verbatim, so committed throttle
and brake never leave [0,1]. -/
theorem C5_throttle_brake_saturated (t b v u : ℚ)
    (ht0 : 0 ≤ t) (ht1 : t ≤ 1) (hb0 : 0 ≤ b) (hb1 : b ≤ 1) :
    (0 ≤ throttleIncrease_newThrottle t ∧ throttleIncrease_newThrottle t ≤ 1) ∧
    (0 ≤ throttleDecrease_newThrottle t ∧ throttleDecrease_newThrottle t ≤ 1) ∧
    (0 ≤ brake_newBrake b ∧ brake_newBrake b ≤ 1) ∧
    (0 ≤ (calculateThrottleAndBrake v u).1 ∧ (calculateThrottleAndBrake v u).1 ≤ 1) ∧
    (0 ≤ (calculateThrottleAndBrake v u).2 ∧ (calculateThrottleAndBrake v u).2 ≤ 1) ∧
    (∀ (s : SharedStateSpace) (m : StateUpdateMessage),
      m.type = StateUpdateType.Throttle → (process_raw_update s m).throttle = m.value) ∧
    (∀ (s : SharedStateSpace) (m : StateUpdateMessage),
      m.type = StateUpdateType.Brake → (process_raw_update s m).brake = m.value) := by
  refine ⟨⟨le_min (by norm_num) (le_max_left 0 _), min_le_left 1 _⟩, ?_, ?_, ?_, ?_, ?_, ?_⟩
  · simp only [throttleDecrease_newThrottle, THROTTLE_DECREASE_RATE, FIXED_DT]
    constructor
    · split_ifs with h
      · exact le_refl 0
      · linarith
    · split_ifs with h
      · norm_num
      · linarith
  · simp only [brake_newBrake, BRAKE_RATE, FIXED_DT, MAX_BRAKE]
    constructor
    · split_ifs with h
      · norm_num
      · linarith
    · split_ifs with h
      · exact le_refl 1
      · linarith
  · simp only [calculateThrottleAndBrake, CRUISE_GAIN, MAX_THROTTLE, MAX_BRAKE]
    constructor
    · split_ifs with h
      · exact le_max_left 0 _
      · exact le_refl 0
    · split_ifs with h
      · exact max_le (by norm_num) (min_le_right _ _)
      · exact zero_le_one
  · simp only [calculateThrottleAndBrake, CRUISE_GAIN, MAX_THROTTLE, MAX_BRAKE]
    constructor
    · split_ifs with h
      · exact le_refl 0
      · exact le_max_left 0 _
    · split_ifs with h
      · exact zero_le_one
      · exact max_le (by norm_num) (min_le_right _ _)
  · intro s m h
    rcases m with ⟨ty, val⟩
    cases h
    rfl
  · intro s m h
    rcases m with ⟨ty, val⟩
    cases h
    rfl

/-- Witness for `C5_throttle_brake_saturated` at concrete control values. -/
theorem C5_throttle_brake_saturated_witness :
    (0 ≤ (1/2 : ℚ) ∧ (1/2 : ℚ) ≤ 1 ∧ 0 ≤ (1/4 : ℚ) ∧ (1/4 : ℚ) ≤ 1) ∧
    ((0 ≤ throttleIncrease_newThrottle (1/2) ∧ throttleIncrease_newThrottle (1/2) ≤ 1) ∧
     (0 ≤ throttleDecrease_newThrottle (1/2) ∧ throttleDecrease_newThrottle (1/2) ≤ 1) ∧
     (0 ≤ brake_newBrake (1/4) ∧ brake_newBrake (1/4) ≤ 1) ∧
     (0 ≤ (calculateThrottleAndBrake 30 100).1 ∧ (calculateThrottleAndBrake 30 100).1 ≤ 1) ∧
     (0 ≤ (calculateThrottleAndBrake 30 100).2 ∧ (calculateThrottleAndBrake 30 100).2 ≤ 1) ∧
     (∀ (s : SharedStateSpace) (m : StateUpdateMessage),
       m.type = StateUpdateType.Throttle → (process_raw_update s m).throttle = m.value) ∧
     (∀ (s : SharedStateSpace) (m : StateUpdateMessage),
       m.type = StateUpdateType.Brake → (process_raw_update s m).brake = m.value)) :=
  ⟨by norm_num,
   C5_throttle_brake_saturated (1/2) (1/4) 30 100
     (by norm_num) (by norm_num) (by norm_num) (by norm_num)⟩

lemma monitorCheckEvent_latched (p : Bool) : monitorCheckEvent true p = (true, false) := by
  simp [monitorCheckEvent]

lemma monitorPublishCount_latched (ps : List Bool) : monitorPublishCount true ps = 0 := by
  induction ps with
  | nil => rfl
  | cons p ps ih => simp [monitorPublishCount, monitorCheckEvent_latched, ih]

lemma managerEventCallback_iterate_triggered (n c : Nat) :
    managerEventCallback^[n] { triggered := true, execCount := c }
      = { triggered := true, execCount := c } := by
  induction n with
  | zero => rfl
  | succ n ih => rw [Function.iterate_succ_apply, managerEventCallback]; simpa using ih

/-- C6: each event's action list runs at most once per run.  The monitor
latches an event the first tick its predicate holds and publishes it at
most once over any sequence of per-tick predicate values; and however many
times the manager's subscribed callback is invoked, it executes the action
list at most once, skipping every invocation after the first. -/
theorem C6_event_actions_at_most_once :
    (∀ preds : List Bool, monitorPublishCount false preds ≤ 1) ∧
    (∀ n : Nat,
      (managerEventCallback^[n] { triggered := false, execCount := 0 }).execCount ≤ 1) := by
  constructor
  · intro preds
    induction preds with
    | nil => norm_num [monitorPublishCount]
    | cons p ps ih =>
      cases p
      · simpa [monitorPublishCount, monitorCheckEvent] using ih
      · simp [monitorPublishCount, monitorCheckEvent, monitorPublishCount_latched]
  · intro n
    cases n with
    | zero => norm_num
    | succ n =>
      rw [Function.iterate_succ_apply]
      show (managerEventCallback^[n] { triggered := true, execCount := 1 }).execCount ≤ 1
      rw [managerEventCallback_iterate_triggered]

lemma startControllerAuthorized_applyStateSettings (s : SharedStateSpace)
    (settings : StateSettings) (name : ControllerName) :
    startControllerAuthorized (applyStateSettings s settings) name
      = startControllerAuthorized s name := by
  cases name <;> rfl

lemma executeStartControllerAction_eq (s : SharedStateSpace) (settings : StateSettings)
    (name : ControllerName) :
    executeStartControllerAction s settings name
      = (applyStateSettings s settings, startControllerAuthorized s name) := by
  simp only [executeStartControllerAction, startControllerAuthorized_applyStateSettings]
  cases h : startControllerAuthorized s name <;> simp [h]

/-- C8: starting the throttle-increase, throttle-decrease or runway-cruise
controller requires `auto_system_has_throttle_control`, and starting the
brake controller requires `auto_system_has_brake_control`; a denied start
does not start the worker, yet the action's `state_settings` have already
been applied — so with auto brake authority off (Manual mode), a
`START_BRAKE` action leaves `brake_control_enabled = true` without starting
the brake worker. -/
theorem C8_start_authority_gate (s : SharedStateSpace) (settings : StateSettings)
    (name : ControllerName)
    (hb : s.control_auth.auto_system_has_brake_control = false) :
    (executeStartControllerAction s settings name).1 = applyStateSettings s settings ∧
    (executeStartControllerAction s settings name).2 = startControllerAuthorized s name ∧
    ((name = .throttle_inc ∨ name = .throttle_dec ∨ name = .cruise_runway) →
      (executeStartControllerAction s settings name).2 = true →
      s.control_auth.auto_system_has_throttle_control = true) ∧
    (name = .brake → (executeStartControllerAction s settings name).2 = false) ∧
    (executeStartControllerAction s { brake_control_enabled := some true } .brake).2 = false ∧
    (executeStartControllerAction s
        { brake_control_enabled := some true } .brake).1.brake_control_enabled = true := by
  refine ⟨by rw [executeStartControllerAction_eq], by rw [executeStartControllerAction_eq],
         ?_, ?_, ?_, ?_⟩
  · intro hn h2
    rw [executeStartControllerAction_eq] at h2
    rcases hn with rfl | rfl | rfl <;> exact h2
  · intro hn
    subst hn
    rw [executeStartControllerAction_eq]
    exact hb
  · rw [executeStartControllerAction_eq]
    exact hb
  · rw [executeStartControllerAction_eq]
    rfl

/-- Witness for `C8_start_authority_gate`: the freshly constructed shared
state (Manual-mode authority defaults) and a `START_BRAKE` action whose
settings enable `brake_control_enabled`. -/
theorem C8_start_authority_gate_witness :
    ({} : SharedStateSpace).control_auth.auto_system_has_brake_control = false ∧
    ((executeStartControllerAction {} {} ControllerName.brake).1
        = applyStateSettings {} {} ∧
     (executeStartControllerAction {} {} ControllerName.brake).2
        = startControllerAuthorized {} ControllerName.brake ∧
     ((ControllerName.brake = .throttle_inc ∨ ControllerName.brake = .throttle_dec ∨
        ControllerName.brake = .cruise_runway) →
       (executeStartControllerAction {} {} ControllerName.brake).2 = true →
       ({} : SharedStateSpace).control_auth.auto_system_has_throttle_control = true) ∧
     (ControllerName.brake = .brake →
       (executeStartControllerAction {} {} ControllerName.brake).2 = false) ∧
     (executeStartControllerAction {}
         { brake_control_enabled := some true } ControllerName.brake).2 = false ∧
     (executeStartControllerAction {}
         { brake_control_enabled := some true }
         ControllerName.brake).1.brake_control_enabled = true) :=
  ⟨rfl, C8_start_authority_gate {} {} ControllerName.brake rfl⟩

lemma recordData_rows_invariant (calls : List ℚ) (s : FileLoggerState)
    (h1 : s.rows.Pairwise (· < ·)) (h2 : ∀ r ∈ s.rows, r ≤ s.last_time) :
    ((calls.foldl recordData s).rows.Pairwise (· < ·)) ∧
    (∀ r ∈ (calls.foldl recordData s).rows, r ≤ (calls.foldl recordData s).last_time) := by
  induction calls generalizing s with
  | nil => exact ⟨h1, h2⟩
  | cons t ts ih =>
    rw [List.foldl_cons]
    apply ih
    · by_cases h : t ≤ s.last_time
      · simpa [recordData, h] using h1
      · simp only [recordData, if_neg h]
        rw [List.pairwise_append]
        refine ⟨h1, List.pairwise_singleton _ _, ?_⟩
        intro a ha b hb
        rw [List.mem_singleton] at hb
        subst hb
        exact lt_of_le_of_lt (h2 a ha) (not_le.mp h)
    · by_cases h : t ≤ s.last_time
      · simpa [recordData, h] using h2
      · simp only [recordData, if_neg h]
        intro r hr
        rw [List.mem_append] at hr
        rcases hr with hr | hr
        · exact le_of_lt (lt_of_le_of_lt (h2 r hr) (not_le.mp h))
        · rw [List.mem_singleton] at hr
          subst hr
          exact le_refl r

/-- C9: over any sequence of `recordData` calls the recorded time column is
strictly increasing; a call whose timestamp is at or below the last
recorded one is dropped with exactly one warning and writes no row, and an
accepted call updates the last-recorded timestamp and appends its row. -/
theorem C9_recorder_time_strictly_increasing (calls : List ℚ) (s : FileLoggerState)
    (t u : ℚ) (hstale : t ≤ s.last_time) (hfresh : s.last_time < u) :
    ((calls.foldl recordData FileLogger_init).rows.Pairwise (· < ·)) ∧
    recordData s t = { s with warnings := s.warnings + 1 } ∧
    (recordData s t).rows = s.rows ∧
    (recordData s u).last_time = u ∧
    (recordData s u).rows = s.rows ++ [u] ∧
    (recordData s u).warnings = s.warnings := by
  refine ⟨(recordData_rows_invariant calls FileLogger_init (by simp [FileLogger_init])
            (by simp [FileLogger_init])).1, ?_, ?_, ?_, ?_, ?_⟩
  · simp [recordData, hstale]
  · simp [recordData, hstale]
  · simp [recordData, not_le.mpr hfresh]
  · simp [recordData, not_le.mpr hfresh]
  · simp [recordData, not_le.mpr hfresh]

/-- Witness for `C9_recorder_time_strictly_increasing`: the spec's stale
delivery — after 1.24 s is logged, a worker posts 1.23 s (dropped) and the
next row is 1.25 s. -/
theorem C9_recorder_time_strictly_increasing_witness :
    (123/100 : ℚ) ≤ (recordData FileLogger_init (124/100)).last_time ∧
    (recordData FileLogger_init (124/100)).last_time < (125/100 : ℚ) ∧
    ((([0, 1/100, 124/100, 123/100, 125/100] : List ℚ).foldl recordData
        FileLogger_init).rows.Pairwise (· < ·) ∧
     recordData (recordData FileLogger_init (124/100)) (123/100)
        = { recordData FileLogger_init (124/100) with
            warnings := (recordData FileLogger_init (124/100)).warnings + 1 } ∧
     (recordData (recordData FileLogger_init (124/100)) (123/100)).rows
        = (recordData FileLogger_init (124/100)).rows ∧
     (recordData (recordData FileLogger_init (124/100)) (125/100)).last_time = 125/100 ∧
     (recordData (recordData FileLogger_init (124/100)) (125/100)).rows
        = (recordData FileLogger_init (124/100)).rows ++ [125/100] ∧
     (recordData (recordData FileLogger_init (124/100)) (125/100)).warnings
        = (recordData FileLogger_init (124/100)).warnings) :=
  ⟨by norm_num [recordData, FileLogger_init], by norm_num [recordData, FileLogger_init],
   C9_recorder_time_strictly_increasing [0, 1/100, 124/100, 123/100, 125/100]
     (recordData FileLogger_init (124/100)) (123/100) (125/100)
     (by norm_num [recordData, FileLogger_init])
     (by norm_num [recordData, FileLogger_init])⟩

/-- C7: after `setFlightMode AUTO` the pilot bits are false and the auto
bits true; after `MANUAL` the complement; after `SEMI_AUTO` all four are
true — and applying `setFlightMode` twice with the same mode equals
applying it once (so a Mode action repeated with the same value leaves the
authority bits unchanged). -/
theorem C7_setFlightMode_authority_group (s : SharedStateSpace) (m : FlightMode)
    (name : String) :
    (setFlightMode s .AUTO).control_auth =
      { pilot_has_throttle_control := false, pilot_has_brake_control := false,
        auto_system_has_throttle_control := true, auto_system_has_brake_control := true } ∧
    (setFlightMode s .MANUAL).control_auth =
      { pilot_has_throttle_control := true, pilot_has_brake_control := true,
        auto_system_has_throttle_control := false, auto_system_has_brake_control := false } ∧
    (setFlightMode s .SEMI_AUTO).control_auth =
      { pilot_has_throttle_control := true, pilot_has_brake_control := true,
        auto_system_has_throttle_control := true, auto_system_has_brake_control := true } ∧
    setFlightMode (setFlightMode s m) m = setFlightMode s m ∧
    managerSetFlightMode (managerSetFlightMode s name) name = managerSetFlightMode s name := by
  refine ⟨rfl, rfl, rfl, ?_, ?_⟩
  · cases m <;> rfl
  · by_cases h1 : name = "AUTO"
    · simp [managerSetFlightMode, h1, setFlightMode]
    · by_cases h2 : name = "MANUAL"
      · simp [managerSetFlightMode, h1, h2, setFlightMode]
      · by_cases h3 : name = "SEMI_AUTO"
        · simp [managerSetFlightMode, h1, h2, h3, setFlightMode]
        · simp [managerSetFlightMode, h1, h2, h3]

/-- C10: `updateState` touches only the snapshot pair — it bumps
`state_version` by exactly one, installs the new record, and leaves every
scalar field unchanged; `getState` is built from the individual fields
only, so its result is unchanged by any preceding sequence of
`updateState` calls. -/
theorem C10_snapshot_commit_decoupled (s : SharedStateSpace) (t : StateSnapshot)
    (l : List StateSnapshot) :
    (updateState s t).state_version = s.state_version + 1 ∧
    (updateState s t).current_state = t ∧
    (updateState s t).position = s.position ∧
    (updateState s t).velocity = s.velocity ∧
    (updateState s t).acceleration = s.acceleration ∧
    (updateState s t).throttle = s.throttle ∧
    (updateState s t).brake = s.brake ∧
    (updateState s t).simulation_time = s.simulation_time ∧
    (updateState s t).thrust = s.thrust ∧
    (updateState s t).brake_force = s.brake_force ∧
    (updateState s t).drag_force = s.drag_force ∧
    (updateState s t).simulation_running = s.simulation_running ∧
    (updateState s t).throttle_control_enabled = s.throttle_control_enabled ∧
    (updateState s t).brake_control_enabled = s.brake_control_enabled ∧
    (updateState s t).cruise_control_enabled = s.cruise_control_enabled ∧
    (updateState s t).pitch_control_enabled = s.pitch_control_enabled ∧
    (updateState s t).target_speed = s.target_speed ∧
    (updateState s t).abort_speed = s.abort_speed ∧
    (updateState s t).pitch_angle = s.pitch_angle ∧
    (updateState s t).pitch_rate = s.pitch_rate ∧
    (updateState s t).pitch_control_output = s.pitch_control_output ∧
    (updateState s t).flight_mode = s.flight_mode ∧
    (updateState s t).control_auth = s.control_auth ∧
    getState (updateState s t) = getState s ∧
    getState (l.foldl updateState s) = getState s := by
  refine ⟨rfl, rfl, rfl, rfl, rfl, rfl, rfl, rfl, rfl, rfl, rfl, rfl, rfl,
         rfl, rfl, rfl, rfl, rfl, rfl, rfl, rfl, rfl, rfl, rfl, ?_⟩
  exact getState_foldl_updateState l s

end ParaSAFE
